import Mathlib

/-!
Verification of the session monitor in
src/auto-session-manager/scripts/monitor.py (class ASMMonitor).

The Python code is shallowly embedded: timestamps are integer seconds,
Python float arithmetic on usage percentages is modelled exactly over the
rationals, the persisted JSON state is threaded explicitly, and each
external subprocess call is recorded as an action value whose outcome is an
input of the model.
-/

/-- Occurrence of the pattern pat inside the character list s, mirroring the
Python membership operator on strings for a nonempty pattern. -/
def charsContain (pat : List Char) : List Char → Bool
  | [] => pat.isEmpty
  | c :: rest => pat.isPrefixOf (c :: rest) || charsContain pat rest

/-- Python substring test: pat occurs inside s. -/
def containsSub (s pat : String) : Bool :=
  charsContain pat.data s.data

/-- The suffix of s that follows the last occurrence of pat; empty when pat
does not occur.  For a separator with no nontrivial border, such as the
string topic with a colon, this equals the last element of the Python
split, because occurrences of such a separator can never overlap. -/
def afterLastOcc (pat : List Char) : List Char → List Char
  | [] => []
  | c :: rest =>
    if charsContain pat rest then afterLastOcc pat rest
    else if pat.isPrefixOf (c :: rest) then (c :: rest).drop pat.length
    else afterLastOcc pat rest

/-- monitor.py lines 263-266 and 277-280: topic id extraction from a session
key, as performed inside check_context_usage. -/
def extract_topic_id (key : String) : String :=
  if containsSub key "topic" then
    if containsSub key "topic:" then String.mk (afterLastOcc "topic:".data key.data)
    else ""
  else ""

/-- monitor.py lines 228-235, ASMMonitor._validate_topic: the topic id must
be a nonempty digit string belonging to the fixed allow-list. -/
def validate_topic (topic_id : String) : Bool :=
  if topic_id.isEmpty || !(topic_id.data.all Char.isDigit) then false
  else ["464", "465", "1186", "1816"].contains topic_id

/-- One session record of sessions.json, holding the fields read by
check_context_usage; Option models a possibly missing key, with the Python
defaults applied at the read site. -/
structure SessionData where
  totalTokens : Option Int
  contextTokens : Option Int
  sessionId : Option String
deriving Repr, DecidableEq

/-- One entry of the results list built by check_context_usage (monitor.py
lines 282-290).  The field usage_percent keeps the exact rational value; the
source stores round(usage_percent, 2) in the record but compares the
unrounded value when selecting the highest session, and no claim concerns
the displayed rounding. -/
structure SessionResult where
  session_key : String
  session_id : String
  total_tokens : Int
  context_limit : Int
  usage_percent : ℚ
  topic_id : String
  needs_summary : Bool
deriving Repr, DecidableEq

/-- monitor.py lines 273-290: the per-session computation of
check_context_usage.  The guard on a positive context limit mirrors line
275, where a nonpositive limit yields usage 0 instead of a division. -/
def mkSessionResult (threshold : ℚ) (key : String) (d : SessionData) : SessionResult :=
  let total_tokens := d.totalTokens.getD 0
  let context_limit := d.contextTokens.getD 200000
  let usage_percent : ℚ :=
    if 0 < context_limit then (total_tokens : ℚ) / (context_limit : ℚ) * 100 else 0
  { session_key := key
    session_id := d.sessionId.getD key
    total_tokens := total_tokens
    context_limit := context_limit
    usage_percent := usage_percent
    topic_id := extract_topic_id key
    needs_summary := decide (usage_percent ≥ threshold) }

/-- The dictionary returned by check_context_usage (monitor.py lines
296-301). -/
structure ContextInfo where
  all_sessions : List SessionResult
  highest : Option SessionResult
  overall_usage : ℚ
  needs_summary : Bool
deriving Repr, DecidableEq

/-- The session loop of check_context_usage (monitor.py lines 259-294),
carrying the accumulators results, highest_usage and highest_session.  Keys
without the substring agent:main are skipped, as are keys whose extracted
topic id is nonempty and fails validation; the highest session is replaced
only on a strictly greater usage value, and is the record just appended. -/
def check_context_loop (threshold : ℚ) :
    List (String × SessionData) → List SessionResult → ℚ → Option SessionResult →
      List SessionResult × ℚ × Option SessionResult
  | [], results, highest_usage, highest_session => (results, highest_usage, highest_session)
  | (key, d) :: rest, results, highest_usage, highest_session =>
    if !(containsSub key "agent:main") then
      check_context_loop threshold rest results highest_usage highest_session
    else
      if extract_topic_id key != "" && !(validate_topic (extract_topic_id key)) then
        check_context_loop threshold rest results highest_usage highest_session
      else
        if (mkSessionResult threshold key d).usage_percent > highest_usage then
          check_context_loop threshold rest (results ++ [mkSessionResult threshold key d])
            (mkSessionResult threshold key d).usage_percent (some (mkSessionResult threshold key d))
        else
          check_context_loop threshold rest (results ++ [mkSessionResult threshold key d])
            highest_usage highest_session

/-- monitor.py lines 237-301, ASMMonitor.check_context_usage, applied to an
already-parsed sessions document given as key and record pairs in dictionary
iteration order.  The source returns None when the file is missing or
unparseable; that path carries no session data and is outside the claims. -/
def check_context_usage (threshold : ℚ) (sessions : List (String × SessionData)) :
    ContextInfo :=
  let out := check_context_loop threshold sessions [] 0 none
  { all_sessions := out.1
    highest := out.2.2
    overall_usage := out.2.1
    needs_summary := decide (out.2.1 ≥ threshold) }

/-- The property of a session key that check_context_loop enforces before
appending a record: the key mentions agent:main and its extracted topic id
is either absent or allow-listed. -/
def keyOk (key : String) : Prop :=
  containsSub key "agent:main" = true ∧
    (extract_topic_id key = "" ∨ validate_topic (extract_topic_id key) = true)

instance (key : String) : Decidable (keyOk key) := by
  unfold keyOk; infer_instance

/-- Loop invariant of check_context_loop: records only enter the results
list after the agent and topic checks, every recorded usage is bounded by
the running maximum, and the tracked highest session is the first recorded
session attaining that maximum. -/
theorem check_context_loop_spec (threshold : ℚ) (sessions : List (String × SessionData)) :
    ∀ (results : List SessionResult) (hu : ℚ) (hs : Option SessionResult),
      (∀ r ∈ results, keyOk r.session_key) →
      (∀ r ∈ results, r.usage_percent ≤ hu) →
      (∀ r, hs = some r → hu = r.usage_percent ∧
        ∃ l₁ l₂, results = l₁ ++ r :: l₂ ∧ ∀ x ∈ l₁, x.usage_percent < r.usage_percent) →
      (∀ r ∈ (check_context_loop threshold sessions results hu hs).1, keyOk r.session_key) ∧
      (∀ r ∈ (check_context_loop threshold sessions results hu hs).1,
        r.usage_percent ≤ (check_context_loop threshold sessions results hu hs).2.1) ∧
      (∀ r, (check_context_loop threshold sessions results hu hs).2.2 = some r →
        (check_context_loop threshold sessions results hu hs).2.1 = r.usage_percent ∧
        ∃ l₁ l₂, (check_context_loop threshold sessions results hu hs).1 = l₁ ++ r :: l₂ ∧
          ∀ x ∈ l₁, x.usage_percent < r.usage_percent) := by
  induction sessions with
  | nil =>
    intro results hu hs h1 h2 h3
    simp only [check_context_loop]
    exact ⟨h1, h2, h3⟩
  | cons p rest ih =>
    obtain ⟨key, d⟩ := p
    intro results hu hs h1 h2 h3
    simp only [check_context_loop]
    by_cases hc : containsSub key "agent:main" = true
    · rw [if_neg (by simp [hc])]
      by_cases hv : (extract_topic_id key != "" && !(validate_topic (extract_topic_id key))) = true
      · rw [if_pos hv]
        exact ih results hu hs h1 h2 h3
      · rw [if_neg hv]
        have htopic : extract_topic_id key = "" ∨ validate_topic (extract_topic_id key) = true := by
          by_cases he : extract_topic_id key = ""
          · exact Or.inl he
          · right
            cases hval : validate_topic (extract_topic_id key)
            · exact absurd (by simp [bne, he, hval]) hv
            · rfl
        have hkok : keyOk (mkSessionResult threshold key d).session_key := ⟨hc, htopic⟩
        by_cases hgt : (mkSessionResult threshold key d).usage_percent > hu
        · rw [if_pos hgt]
          apply ih
          · intro x hx
            rcases List.mem_append.mp hx with h | h
            · exact h1 x h
            · rw [List.mem_singleton.mp h]; exact hkok
          · intro x hx
            rcases List.mem_append.mp hx with h | h
            · exact le_of_lt (lt_of_le_of_lt (h2 x h) hgt)
            · rw [List.mem_singleton.mp h]
          · intro x hx
            obtain rfl : mkSessionResult threshold key d = x := Option.some.inj hx
            refine ⟨rfl, results, [], rfl, ?_⟩
            intro y hy
            exact lt_of_le_of_lt (h2 y hy) hgt
        · rw [if_neg hgt]
          apply ih
          · intro x hx
            rcases List.mem_append.mp hx with h | h
            · exact h1 x h
            · rw [List.mem_singleton.mp h]; exact hkok
          · intro x hx
            rcases List.mem_append.mp hx with h | h
            · exact h2 x h
            · rw [List.mem_singleton.mp h]; exact not_lt.mp hgt
          · intro x hx
            obtain ⟨heq, l₁, l₂, hsplit, hlt⟩ := h3 x hx
            refine ⟨heq, l₁, l₂ ++ [mkSessionResult threshold key d], ?_, hlt⟩
            rw [hsplit]
            simp
    · have hc2 : (!containsSub key "agent:main") = true := by
        cases h : containsSub key "agent:main"
        · rfl
        · exact absurd h hc
      rw [if_pos hc2]
      exact ih results hu hs h1 h2 h3

/-- C1: the session reported as highest by check_context_usage is one with
maximal usage value among the recorded sessions, ties broken in favor of the
first-seen session by the strictly-greater comparison; every recorded
session, hence also the highest, has an absent or allow-listed topic id, so
a session with an invalid topic id is never recorded and never selected. -/
theorem claim_C1 (threshold : ℚ) (sessions : List (String × SessionData)) :
    (∀ r, (check_context_usage threshold sessions).highest = some r →
      r ∈ (check_context_usage threshold sessions).all_sessions ∧
      (∀ x ∈ (check_context_usage threshold sessions).all_sessions,
        x.usage_percent ≤ r.usage_percent) ∧
      ∃ l₁ l₂, (check_context_usage threshold sessions).all_sessions = l₁ ++ r :: l₂ ∧
        ∀ x ∈ l₁, x.usage_percent < r.usage_percent) ∧
    ∀ r ∈ (check_context_usage threshold sessions).all_sessions, keyOk r.session_key := by
  have h := check_context_loop_spec threshold sessions [] 0 none
    (by intro r hr; cases hr) (by intro r hr; cases hr) (by intro r hr; cases hr)
  obtain ⟨hA, hB, hC⟩ := h
  simp only [check_context_usage]
  constructor
  · intro r hr
    obtain ⟨heq, l₁, l₂, hsplit, hlt⟩ := hC r hr
    refine ⟨?_, ?_, l₁, l₂, hsplit, hlt⟩
    · rw [hsplit]; simp
    · intro x hx
      calc x.usage_percent ≤ _ := hB x hx
        _ = r.usage_percent := heq
  · exact hA

/-- Example sessions document for the C1 witness: one agent:main session with
an invalid topic and an enormous usage ratio, one valid session at 50
percent, one record without agent:main, and one valid session at 25
percent. -/
def exSessionsC1 : List (String × SessionData) :=
  [("agent:main:topic:999", ⟨some 50, some 2, none⟩),
   ("agent:main:topic:464", ⟨some 1, some 2, none⟩),
   ("other", ⟨some 70, some 2, none⟩),
   ("agent:main:topic:465", ⟨some 1, some 4, none⟩)]

/-- The record check_context_usage reports as highest on exSessionsC1. -/
def exHighestC1 : SessionResult :=
  mkSessionResult 80 "agent:main:topic:464" ⟨some 1, some 2, none⟩

set_option maxRecDepth 4000 in
/-- Witness for C1 at a concrete sessions document: the reported highest
session is the valid 50 percent session, not the invalid-topic session with
a far larger ratio, and the maximality and first-seen properties hold on the
results list. -/
theorem claim_C1_witness :
    (check_context_usage 80 exSessionsC1).highest = some exHighestC1 ∧
    (exHighestC1 ∈ (check_context_usage 80 exSessionsC1).all_sessions ∧
      (∀ x ∈ (check_context_usage 80 exSessionsC1).all_sessions,
        x.usage_percent ≤ exHighestC1.usage_percent) ∧
      ∃ l₁ l₂, (check_context_usage 80 exSessionsC1).all_sessions = l₁ ++ exHighestC1 :: l₂ ∧
        ∀ x ∈ l₁, x.usage_percent < exHighestC1.usage_percent) :=
  ⟨by with_unfolding_all decide,
   (claim_C1 80 exSessionsC1).1 exHighestC1 (by with_unfolding_all decide)⟩

/-- C9: a session record whose retrieved context limit is nonpositive gets
usage 0 from the computation of check_context_usage, with no division, and
its needs_summary flag is evaluated against the ratio 0. -/
theorem claim_C9 (threshold : ℚ) (key : String) (d : SessionData)
    (h : d.contextTokens.getD 200000 ≤ 0) :
    (mkSessionResult threshold key d).usage_percent = 0 ∧
    (mkSessionResult threshold key d).needs_summary = decide ((0 : ℚ) ≥ threshold) := by
  have hlim : ¬(0 < d.contextTokens.getD 200000) := not_lt.mpr h
  constructor
  · simp only [mkSessionResult, if_neg hlim]
  · simp only [mkSessionResult, if_neg hlim]

/-- Witness for C9 at the concrete record with context limit exactly 0: the
usage is 0 and needs_summary is compared against 0. -/
theorem claim_C9_witness :
    ((⟨some 170000, some 0, none⟩ : SessionData).contextTokens.getD 200000 ≤ 0) ∧
    ((mkSessionResult 80 "agent:main:x" ⟨some 170000, some 0, none⟩).usage_percent = 0 ∧
      (mkSessionResult 80 "agent:main:x" ⟨some 170000, some 0, none⟩).needs_summary =
        decide ((0 : ℚ) ≥ 80)) :=
  ⟨by decide, claim_C9 80 "agent:main:x" ⟨some 170000, some 0, none⟩ (by decide)⟩

/-- C10: only records whose key mentions agent:main appear in the results
list of check_context_usage, and the highest session is such a record; any
other record in the sessions document is excluded from both. -/
theorem claim_C10 (threshold : ℚ) (sessions : List (String × SessionData)) :
    (∀ r ∈ (check_context_usage threshold sessions).all_sessions,
      containsSub r.session_key "agent:main" = true) ∧
    ∀ r, (check_context_usage threshold sessions).highest = some r →
      r ∈ (check_context_usage threshold sessions).all_sessions ∧
      containsSub r.session_key "agent:main" = true := by
  have h := check_context_loop_spec threshold sessions [] 0 none
    (by intro r hr; cases hr) (by intro r hr; cases hr) (by intro r hr; cases hr)
  obtain ⟨hA, hB, hC⟩ := h
  simp only [check_context_usage]
  constructor
  · intro r hr
    exact (hA r hr).1
  · intro r hr
    obtain ⟨heq, l₁, l₂, hsplit, hlt⟩ := hC r hr
    have hmem : r ∈ (check_context_loop threshold sessions [] 0 none).1 := by
      rw [hsplit]; simp
    exact ⟨hmem, (hA r hmem).1⟩

/-- Example sessions document for the C10 witness: a non agent:main record
with huge usage next to a valid agent:main record. -/
def exSessionsC10 : List (String × SessionData) :=
  [("subagent", ⟨some 40, some 2, none⟩),
   ("agent:main:dm", ⟨some 1, some 2, none⟩)]

/-- The record check_context_usage reports as highest on exSessionsC10. -/
def exHighestC10 : SessionResult :=
  mkSessionResult 80 "agent:main:dm" ⟨some 1, some 2, none⟩

set_option maxRecDepth 4000 in
/-- Witness for C10 at a concrete sessions document: the recorded key
mentions agent:main and the highest session key mentions agent:main. -/
theorem claim_C10_witness :
    ((mkSessionResult 80 "agent:main:dm" ⟨some 1, some 2, none⟩) ∈
      (check_context_usage 80 exSessionsC10).all_sessions ∧
      containsSub (mkSessionResult 80 "agent:main:dm"
        ⟨some 1, some 2, none⟩).session_key "agent:main" = true) ∧
    ((check_context_usage 80 exSessionsC10).highest = some exHighestC10 ∧
      exHighestC10 ∈ (check_context_usage 80 exSessionsC10).all_sessions ∧
      containsSub exHighestC10.session_key "agent:main" = true) :=
  ⟨⟨by with_unfolding_all decide,
    (claim_C10 80 exSessionsC10).1 _ (by with_unfolding_all decide)⟩,
   by with_unfolding_all decide,
   (claim_C10 80 exSessionsC10).2 exHighestC10 (by with_unfolding_all decide)⟩

/-- External actions performed by the needs-summary branch of
run_single_check, in program order: a write of the persisted state carrying
the recorded sessions_processed list, the summary extraction, the
new-session creation, and the feed notification carrying the old usage
percentage and the fixed topic. -/
inductive OrchAction where
  | saveState (sessions_processed : List String)
  | summarize (session_key : String)
  | createSession (session_key : String)
  | notifyFeed (usage_percent : ℚ) (topic_id : Int)
deriving Repr, DecidableEq

/-- Outcomes of the external collaborators used during a rollover:
trigger_summary returning success, and create_new_session returning the new
session id or none on failure.  The source discards the value returned by
create_new_session (monitor.py line 873), so createResult influences
nothing downstream. -/
structure RolloverEnv where
  summarizeOk : Bool
  createResult : Option String
deriving Repr, DecidableEq

/-- monitor.py lines 849-878: the needs-summary branch of run_single_check.
disk is the persisted sessions_processed list that line 851 re-loads from
the state file.  If the key of the highest session was already processed,
nothing further happens this cycle; otherwise the key is appended and the
state saved (lines 858-859), saved again after recording last_summary_time
(lines 863-864), trigger_summary invoked (line 871), and only on its
success create_new_session and then notify_feed are invoked (lines
872-878), the notification regardless of the creation outcome. -/
def rollover_branch (disk : List String) (highest : SessionResult)
    (needs_summary : Bool) (env : RolloverEnv) : List String × List OrchAction :=
  if !needs_summary then (disk, [])
  else if disk.contains highest.session_key then (disk, [])
  else
    if env.summarizeOk then
      (disk ++ [highest.session_key],
       [OrchAction.saveState (disk ++ [highest.session_key]),
        OrchAction.saveState (disk ++ [highest.session_key]),
        OrchAction.summarize highest.session_key,
        OrchAction.createSession highest.session_key,
        OrchAction.notifyFeed highest.usage_percent 1816])
    else
      (disk ++ [highest.session_key],
       [OrchAction.saveState (disk ++ [highest.session_key]),
        OrchAction.saveState (disk ++ [highest.session_key]),
        OrchAction.summarize highest.session_key])

/-- One monitoring cycle input for the rollover branch: the highest session
and overall needs_summary flag produced by check_context_usage, and the
external outcomes of that cycle. -/
structure RolloverCycle where
  highest : SessionResult
  needs_summary : Bool
  env : RolloverEnv
deriving Repr, DecidableEq

/-- Repeated monitoring cycles of the rollover branch, threading the
persisted sessions_processed list (saved at line 859 and by the cycle-end
save at line 938, re-loaded at line 851 of the next cycle) and collecting
all actions in order. -/
def rollover_run (disk : List String) : List RolloverCycle → List String × List OrchAction
  | [] => (disk, [])
  | c :: rest =>
    ((rollover_run (rollover_branch disk c.highest c.needs_summary c.env).1 rest).1,
     (rollover_branch disk c.highest c.needs_summary c.env).2 ++
       (rollover_run (rollover_branch disk c.highest c.needs_summary c.env).1 rest).2)

/-- Recognizer of a summarize action for the given session key. -/
def isSummarizeFor (k : String) : OrchAction → Bool
  | OrchAction.summarize k2 => k2 == k
  | _ => false

/-- How many summary orchestrations for the given session key a list of
actions holds. -/
def summarizeCount (k : String) (acts : List OrchAction) : Nat :=
  (acts.filter (isSummarizeFor k)).length

/-- The processed list only grows across a rollover branch. -/
theorem rollover_branch_mem_mono (disk : List String) (highest : SessionResult)
    (ns : Bool) (env : RolloverEnv) (k : String) (hk : k ∈ disk) :
    k ∈ (rollover_branch disk highest ns env).1 := by
  by_cases hC : highest.session_key ∈ disk
  · cases ns <;> cases hS : env.summarizeOk <;> simp [rollover_branch, hC, hS, hk]
  · cases ns <;> cases hS : env.summarizeOk <;> simp [rollover_branch, hC, hS, hk]

/-- A rollover branch never summarizes a key that the freshly loaded
processed list already holds. -/
theorem rollover_branch_count_zero (disk : List String) (highest : SessionResult)
    (ns : Bool) (env : RolloverEnv) (k : String) (hk : k ∈ disk) :
    summarizeCount k (rollover_branch disk highest ns env).2 = 0 := by
  by_cases hC : highest.session_key ∈ disk
  · cases ns <;> simp [rollover_branch, hC, summarizeCount]
  · have hne : (highest.session_key == k) = false := by
      cases hkey : highest.session_key == k
      · rfl
      · exact absurd (eq_of_beq hkey ▸ hk) hC
    cases ns <;> cases hS : env.summarizeOk <;>
      simp [rollover_branch, hC, hS, summarizeCount, isSummarizeFor, hne]

/-- A rollover branch summarizes the given key at most once, and when it
does, the key is recorded in the processed list it returns. -/
theorem rollover_branch_count_cases (disk : List String) (highest : SessionResult)
    (ns : Bool) (env : RolloverEnv) (k : String) :
    summarizeCount k (rollover_branch disk highest ns env).2 = 0 ∨
    (summarizeCount k (rollover_branch disk highest ns env).2 = 1 ∧
      k ∈ (rollover_branch disk highest ns env).1) := by
  by_cases hC : highest.session_key ∈ disk
  · left
    cases ns <;> simp [rollover_branch, hC, summarizeCount]
  · cases hkey : highest.session_key == k
    · left
      cases ns <;> cases hS : env.summarizeOk <;>
        simp [rollover_branch, hC, hS, summarizeCount, isSummarizeFor, hkey]
    · have heq : highest.session_key = k := eq_of_beq hkey
      subst heq
      cases ns
      · left
        simp [rollover_branch, summarizeCount]
      · right
        constructor
        · cases hS : env.summarizeOk <;>
            simp [rollover_branch, hC, hS, summarizeCount, isSummarizeFor]
        · cases hS : env.summarizeOk <;>
            simp [rollover_branch, hC, hS]

/-- Once a key sits in the persisted processed list, no later cycle of
the run ever summarizes it. -/
theorem rollover_run_count_zero (k : String) (cycles : List RolloverCycle) :
    ∀ disk : List String, k ∈ disk → summarizeCount k (rollover_run disk cycles).2 = 0 := by
  induction cycles with
  | nil =>
    intro disk hk
    simp [rollover_run, summarizeCount]
  | cons c rest ih =>
    intro disk hk
    simp only [rollover_run, summarizeCount, List.filter_append, List.length_append]
    have h1 := rollover_branch_count_zero disk c.highest c.needs_summary c.env k hk
    have h2 := ih _ (rollover_branch_mem_mono disk c.highest c.needs_summary c.env k hk)
    simp only [summarizeCount] at h1 h2
    omega

/-- Across any run of cycles, a given key is summarized at most once. -/
theorem rollover_run_count_le_one (k : String) (cycles : List RolloverCycle) :
    ∀ disk : List String, summarizeCount k (rollover_run disk cycles).2 ≤ 1 := by
  induction cycles with
  | nil =>
    intro disk
    simp [rollover_run, summarizeCount]
  | cons c rest ih =>
    intro disk
    simp only [rollover_run, summarizeCount, List.filter_append, List.length_append]
    rcases rollover_branch_count_cases disk c.highest c.needs_summary c.env k with h | ⟨h1, h2⟩
    · have h2 := ih (rollover_branch disk c.highest c.needs_summary c.env).1
      simp only [summarizeCount] at h h2
      omega
    · have h3 := rollover_run_count_zero k rest _ h2
      simp only [summarizeCount] at h1 h3
      omega

/-- C2: in a cycle whose highest session needs rollover, the freshly
re-loaded processed list decides the branch: an already-processed key
performs no summarize, create or notify action at all that cycle; a fresh
key is first appended to the processed list and written to disk, and the
summarize step is attempted only afterwards, with the creation and
notification only on summarize success; consequently, across any run of
cycles a given session key is summarized at most once, even when its
rollover fails. -/
theorem claim_C2 (disk : List String) (highest : SessionResult) (env : RolloverEnv)
    (cycles : List RolloverCycle) (k : String) :
    (highest.session_key ∈ disk →
      rollover_branch disk highest true env = (disk, [])) ∧
    (highest.session_key ∉ disk →
      (rollover_branch disk highest true env).1 = disk ++ [highest.session_key] ∧
      (rollover_branch disk highest true env).2 =
        [OrchAction.saveState (disk ++ [highest.session_key]),
         OrchAction.saveState (disk ++ [highest.session_key]),
         OrchAction.summarize highest.session_key] ++
        (if env.summarizeOk then
          [OrchAction.createSession highest.session_key,
           OrchAction.notifyFeed highest.usage_percent 1816]
         else [])) ∧
    summarizeCount k (rollover_run disk cycles).2 ≤ 1 := by
  refine ⟨?_, ?_, rollover_run_count_le_one k cycles disk⟩
  · intro hC
    simp [rollover_branch, hC]
  · intro hC
    cases hS : env.summarizeOk <;> simp [rollover_branch, hC, hS]

/-- Concrete highest session for the C2 witness. -/
def exHighestC2 : SessionResult :=
  ⟨"agent:main:a", "agent:main:a", 9, 10, 90, "", true⟩

/-- Two cycles both reporting the same overflowing session, the first with
a failing summarize step. -/
def exCyclesC2 : List RolloverCycle :=
  [⟨exHighestC2, true, ⟨false, none⟩⟩, ⟨exHighestC2, true, ⟨true, some "new"⟩⟩]

/-- Witness for C2 at concrete inputs: a processed key is skipped outright,
a fresh key is appended with the state saved before the summarize attempt,
and the two-cycle run summarizes the key at most once. -/
theorem claim_C2_witness :
    ("agent:main:a" ∈ ["agent:main:a"] ∧
      rollover_branch ["agent:main:a"] exHighestC2 true ⟨true, some "new"⟩ =
        (["agent:main:a"], [])) ∧
    ("agent:main:a" ∉ ([] : List String) ∧
      (rollover_branch [] exHighestC2 true ⟨false, none⟩).1 = [] ++ ["agent:main:a"] ∧
      (rollover_branch [] exHighestC2 true ⟨false, none⟩).2 =
        [OrchAction.saveState ([] ++ ["agent:main:a"]),
         OrchAction.saveState ([] ++ ["agent:main:a"]),
         OrchAction.summarize "agent:main:a"] ++
        (if (⟨false, none⟩ : RolloverEnv).summarizeOk then
          [OrchAction.createSession "agent:main:a",
           OrchAction.notifyFeed (90 : ℚ) 1816]
         else [])) ∧
    summarizeCount "agent:main:a" (rollover_run [] exCyclesC2).2 ≤ 1 :=
  ⟨⟨by decide,
    (claim_C2 ["agent:main:a"] exHighestC2 ⟨true, some "new"⟩ [] "agent:main:a").1
      (by decide)⟩,
   ⟨by decide,
    (claim_C2 [] exHighestC2 ⟨false, none⟩ [] "agent:main:a").2.1 (by decide)⟩,
   (claim_C2 [] exHighestC2 ⟨false, none⟩ exCyclesC2 "agent:main:a").2.2⟩

/-- Recognizer of any feed notification action. -/
def isNotifyFeed : OrchAction → Bool
  | OrchAction.notifyFeed _ _ => true
  | _ => false

/-- Concrete highest session for the C3 counterexample: 90 percent usage. -/
def exHighestC3 : SessionResult :=
  ⟨"agent:main:b", "agent:main:b", 9, 10, 90, "", true⟩

/-- C3 counterexample: with trigger_summary succeeding and
create_new_session returning no new session, the rollover branch still
emits the feed notification, contradicting the claim that the notification
is sent only on successful creation. -/
theorem claim_C3_counterexample :
    (⟨true, none⟩ : RolloverEnv).createResult = none ∧
    (rollover_branch [] exHighestC3 true ⟨true, none⟩).2.contains
      (OrchAction.notifyFeed 90 1816) = true := by decide

/-- C3 amended: the feed notification of the rollover sequence is emitted
exactly when the branch is taken for a fresh needs-summary session and
trigger_summary succeeds; it does not depend on the result of
create_new_session, whose return value line 873 of monitor.py discards. -/
theorem claim_C3 (disk : List String) (highest : SessionResult)
    (needs_summary : Bool) (env : RolloverEnv) :
    (rollover_branch disk highest needs_summary env).2.any isNotifyFeed =
      (needs_summary && !(disk.contains highest.session_key) && env.summarizeOk) := by
  by_cases hC : highest.session_key ∈ disk
  · cases needs_summary <;> cases hS : env.summarizeOk <;>
      simp [rollover_branch, hC, hS, isNotifyFeed]
  · cases needs_summary <;> cases hS : env.summarizeOk <;>
      simp [rollover_branch, hC, hS, isNotifyFeed]

/-- Commands the restart path can run externally: the pkill of the gateway
process and the nohup start of a new one. -/
inductive GwCmd where
  | stopGateway
  | startGateway
deriving Repr, DecidableEq

/-- Outcome of ASMMonitor.restart_gateway: the returned Bool, the in-memory
restart_attempts counter and last_restart_time timestamp, the persisted
failed_restarts counter, whether the state file was written, and the
commands run. -/
structure RestartOutcome where
  ok : Bool
  restart_attempts : Nat
  last_restart_time : Option Int
  failed_restarts : Nat
  stateSaved : Bool
  cmds : List GwCmd
deriving Repr, DecidableEq

/-- monitor.py lines 660-701, ASMMonitor.restart_gateway.  Timestamps are
integer seconds.  Inside the cooldown window the call returns False before
touching anything.  Otherwise the stop and start commands run; raises
models an exception from that block, taken to occur at the start command,
which reaches the except branch of line 698 where only restart_attempts is
incremented.  On success last_restart_time is set to now, restart_attempts
and failed_restarts are zeroed and the state saved (lines 692-695). -/
def restart_gateway (restart_cooldown : Int) (now : Int) (restart_attempts : Nat)
    (last_restart_time : Option Int) (failed_restarts : Nat) (raises : Bool) :
    RestartOutcome :=
  let inCooldown : Bool :=
    match last_restart_time with
    | some t => decide (now - t < restart_cooldown)
    | none => false
  if inCooldown then
    ⟨false, restart_attempts, last_restart_time, failed_restarts, false, []⟩
  else if raises then
    ⟨false, restart_attempts + 1, last_restart_time, failed_restarts, false,
      [GwCmd.stopGateway]⟩
  else
    ⟨true, 0, some now, 0, true, [GwCmd.stopGateway, GwCmd.startGateway]⟩

/-- C6: a restart call issued strictly inside the cooldown window returns
False without running the stop or start commands and without side effects:
restart_attempts, last_restart_time, failed_restarts and the persisted
state are untouched. -/
theorem claim_C6 (restart_cooldown now t : Int) (restart_attempts : Nat)
    (failed_restarts : Nat) (raises : Bool) (h : now - t < restart_cooldown) :
    restart_gateway restart_cooldown now restart_attempts (some t) failed_restarts raises =
      ⟨false, restart_attempts, some t, failed_restarts, false, []⟩ := by
  simp [restart_gateway, h]

/-- Witness for C6: a call 10 seconds after the last restart with a 120
second cooldown is a pure failure. -/
theorem claim_C6_witness :
    ((110 : Int) - 100 < 120) ∧
    restart_gateway 120 110 2 (some 100) 1 false = ⟨false, 2, some 100, 1, false, []⟩ :=
  ⟨by decide, claim_C6 120 110 100 2 1 false (by decide)⟩

/-- Result of the gateway health section of run_single_check: the persisted
gateway_downtime_start, the in-memory restart counters, whether
trigger_claude_code_fix ran (it always sends the manual-intervention
notification, lines 782-806), and the commands run. -/
structure GwStepOut where
  gateway_downtime_start : Option Int
  restart_attempts : Nat
  last_restart_time : Option Int
  failed_restarts : Nat
  escalated : Bool
  cmds : List GwCmd
deriving Repr, DecidableEq

/-- monitor.py lines 890-906: the gateway part of run_single_check.  status
is the status string from check_gateway_health.  On any status other than
healthy, gateway_downtime_start is set to now if null and kept otherwise;
once the downtime exceeds gateway_timeout, restart_gateway runs, and a
failure with the post-call restart_attempts at or above
restart_max_attempts calls trigger_claude_code_fix.  On a healthy status
gateway_downtime_start is reset to null unconditionally (line 906). -/
def gateway_section (gateway_timeout restart_cooldown : Int) (restart_max_attempts : Nat)
    (now : Int) (gateway_downtime_start : Option Int) (restart_attempts : Nat)
    (last_restart_time : Option Int) (failed_restarts : Nat)
    (status : String) (raises : Bool) : GwStepOut :=
  if status != "healthy" then
    let ds : Option Int :=
      match gateway_downtime_start with
      | none => some now
      | some t => some t
    if now - ds.getD now > gateway_timeout then
      if !(restart_gateway restart_cooldown now restart_attempts last_restart_time
            failed_restarts raises).ok then
        ⟨ds,
         (restart_gateway restart_cooldown now restart_attempts last_restart_time
            failed_restarts raises).restart_attempts,
         (restart_gateway restart_cooldown now restart_attempts last_restart_time
            failed_restarts raises).last_restart_time,
         (restart_gateway restart_cooldown now restart_attempts last_restart_time
            failed_restarts raises).failed_restarts,
         decide ((restart_gateway restart_cooldown now restart_attempts last_restart_time
            failed_restarts raises).restart_attempts ≥ restart_max_attempts),
         (restart_gateway restart_cooldown now restart_attempts last_restart_time
            failed_restarts raises).cmds⟩
      else
        ⟨ds,
         (restart_gateway restart_cooldown now restart_attempts last_restart_time
            failed_restarts raises).restart_attempts,
         (restart_gateway restart_cooldown now restart_attempts last_restart_time
            failed_restarts raises).last_restart_time,
         (restart_gateway restart_cooldown now restart_attempts last_restart_time
            failed_restarts raises).failed_restarts,
         false,
         (restart_gateway restart_cooldown now restart_attempts last_restart_time
            failed_restarts raises).cmds⟩
    else ⟨ds, restart_attempts, last_restart_time, failed_restarts, false, []⟩
  else ⟨none, restart_attempts, last_restart_time, failed_restarts, false, []⟩

/-- C4: after the gateway section of a cycle, gateway_downtime_start is
null exactly when the probe returned healthy; a first unhealthy probe
stamps the current time, later unhealthy probes keep the stamp, and a
single healthy probe clears it unconditionally, whatever the restart
machinery did. -/
theorem claim_C4 (gateway_timeout restart_cooldown : Int) (restart_max_attempts : Nat)
    (now : Int) (gateway_downtime_start : Option Int) (restart_attempts : Nat)
    (last_restart_time : Option Int) (failed_restarts : Nat)
    (status : String) (raises : Bool) :
    (gateway_section gateway_timeout restart_cooldown restart_max_attempts now
      gateway_downtime_start restart_attempts last_restart_time failed_restarts
      status raises).gateway_downtime_start =
      if status == "healthy" then none
      else some (gateway_downtime_start.getD now) := by
  by_cases hst : status = "healthy"
  · simp [gateway_section, hst]
  · have hne : (status != "healthy") = true := by simp [bne, hst]
    cases gateway_downtime_start with
    | none =>
      simp only [gateway_section, hne, if_true]
      split <;> split <;> simp_all
    | some t =>
      simp only [gateway_section, hne, if_true]
      split <;> split <;> simp_all

/-- C7 counterexample: a restart call suppressed by the cooldown returns
failure yet leaves restart_attempts at its prior value 0 instead of
counting one more attempt, so a suppressed attempt does not contribute to
the counter compared against restart_max_attempts. -/
theorem claim_C7_counterexample :
    (restart_gateway 120 110 0 (some 100) 0 false).ok = false ∧
    (restart_gateway 120 110 0 (some 100) 0 false).restart_attempts = 0 ∧
    (restart_gateway 120 110 0 (some 100) 0 false).restart_attempts ≠ 0 + 1 := by decide

/-- C7 amended: a restart attempt suppressed by the cooldown returns
failure, which makes run_single_check compare the unchanged
restart_attempts counter against restart_max_attempts and escalate exactly
when that prior counter already reached the limit; the suppressed attempt
does not increment the counter, and it does not reset downtime tracking:
gateway_downtime_start keeps its stamp. -/
theorem claim_C7 (gateway_timeout restart_cooldown : Int) (restart_max_attempts : Nat)
    (now t0 t : Int) (restart_attempts failed_restarts : Nat)
    (status : String) (raises : Bool)
    (hst : status ≠ "healthy") (hdt : now - t0 > gateway_timeout)
    (hcd : now - t < restart_cooldown) :
    gateway_section gateway_timeout restart_cooldown restart_max_attempts now (some t0)
      restart_attempts (some t) failed_restarts status raises =
      ⟨some t0, restart_attempts, some t, failed_restarts,
        decide (restart_attempts ≥ restart_max_attempts), []⟩ := by
  have hne : (status != "healthy") = true := by simp [bne, hst]
  simp [gateway_section, hne, hdt, restart_gateway, hcd]

/-- Witness for C7: with the counter already at the limit of 3, a
suppressed attempt escalates without incrementing the counter and keeps
the downtime stamp. -/
theorem claim_C7_witness :
    ("unreachable" ≠ "healthy" ∧ (1000 : Int) - 0 > 120 ∧ (1000 : Int) - 950 < 120) ∧
    gateway_section 120 120 3 1000 (some 0) 3 (some 950) 0 "unreachable" false =
      ⟨some 0, 3, some 950, 0, decide ((3 : Nat) ≥ 3), []⟩ :=
  ⟨⟨by decide, by decide, by decide⟩,
   claim_C7 120 120 3 1000 0 950 3 0 "unreachable" false (by decide) (by decide) (by decide)⟩

/-- The gateway-related state threaded between monitoring cycles: the
persisted downtime stamp and failed_restarts, and the in-memory
restart_attempts and last_restart_time of the long-lived monitor object. -/
structure GwState where
  gateway_downtime_start : Option Int
  restart_attempts : Nat
  last_restart_time : Option Int
  failed_restarts : Nat
deriving Repr, DecidableEq

/-- One probe cycle for the gateway section: the current time, the status
string of check_gateway_health, and whether the restart commands raise. -/
structure GwCycle where
  now : Int
  status : String
  raises : Bool
deriving Repr, DecidableEq

/-- Repeated monitoring cycles of the gateway section, threading the state
and counting the escalations, that is the calls of
trigger_claude_code_fix and with it the manual-intervention
notification. -/
def gateway_run (gateway_timeout restart_cooldown : Int) (restart_max_attempts : Nat)
    (st : GwState) : List GwCycle → GwState × Nat
  | [] => (st, 0)
  | c :: rest =>
    ((gateway_run gateway_timeout restart_cooldown restart_max_attempts
        ⟨(gateway_section gateway_timeout restart_cooldown restart_max_attempts c.now
            st.gateway_downtime_start st.restart_attempts st.last_restart_time
            st.failed_restarts c.status c.raises).gateway_downtime_start,
          (gateway_section gateway_timeout restart_cooldown restart_max_attempts c.now
            st.gateway_downtime_start st.restart_attempts st.last_restart_time
            st.failed_restarts c.status c.raises).restart_attempts,
          (gateway_section gateway_timeout restart_cooldown restart_max_attempts c.now
            st.gateway_downtime_start st.restart_attempts st.last_restart_time
            st.failed_restarts c.status c.raises).last_restart_time,
          (gateway_section gateway_timeout restart_cooldown restart_max_attempts c.now
            st.gateway_downtime_start st.restart_attempts st.last_restart_time
            st.failed_restarts c.status c.raises).failed_restarts⟩ rest).1,
     (if (gateway_section gateway_timeout restart_cooldown restart_max_attempts c.now
            st.gateway_downtime_start st.restart_attempts st.last_restart_time
            st.failed_restarts c.status c.raises).escalated then 1 else 0) +
       (gateway_run gateway_timeout restart_cooldown restart_max_attempts
        ⟨(gateway_section gateway_timeout restart_cooldown restart_max_attempts c.now
            st.gateway_downtime_start st.restart_attempts st.last_restart_time
            st.failed_restarts c.status c.raises).gateway_downtime_start,
          (gateway_section gateway_timeout restart_cooldown restart_max_attempts c.now
            st.gateway_downtime_start st.restart_attempts st.last_restart_time
            st.failed_restarts c.status c.raises).restart_attempts,
          (gateway_section gateway_timeout restart_cooldown restart_max_attempts c.now
            st.gateway_downtime_start st.restart_attempts st.last_restart_time
            st.failed_restarts c.status c.raises).last_restart_time,
          (gateway_section gateway_timeout restart_cooldown restart_max_attempts c.now
            st.gateway_downtime_start st.restart_attempts st.last_restart_time
            st.failed_restarts c.status c.raises).failed_restarts⟩ rest).2)

/-- A family of all-failing probe cycles: cycle i happens at time
200 times i plus 200, finds the gateway unreachable, and its restart
raises. -/
def failCycles (n : Nat) : List GwCycle :=
  (List.range n).map (fun i => ⟨200 * ((i : Int) + 1), "unreachable", true⟩)

/-- C8 counterexample: five consecutive failing cycles past the timeout,
with the default limits, send three escalation notifications, not exactly
one: with the counter never reset, every failing cycle from the third on
escalates again. -/
theorem claim_C8_counterexample :
    (gateway_run 120 120 3 ⟨some 0, 0, none, 0⟩ (failCycles 5)).2 = 3 := by decide

/-- Evaluation of one failing past-timeout cycle: the raising restart
increments the counter by one, nothing resets it, and the escalation fires
exactly when the incremented counter reaches the limit. -/
theorem gateway_section_failing (gateway_timeout restart_cooldown : Int)
    (restart_max_attempts : Nat) (now t0 : Int) (a f : Nat) (status : String)
    (hst : status ≠ "healthy") (hdt : now - t0 > gateway_timeout) :
    gateway_section gateway_timeout restart_cooldown restart_max_attempts now (some t0)
      a none f status true =
      ⟨some t0, a + 1, none, f, decide (a + 1 ≥ restart_max_attempts),
        [GwCmd.stopGateway]⟩ := by
  have hne : (status != "healthy") = true := by simp [bne, hst]
  simp [gateway_section, hne, hdt, restart_gateway]

/-- Splitting a gateway run over an append of cycle lists. -/
theorem gateway_run_append (gateway_timeout restart_cooldown : Int)
    (restart_max_attempts : Nat) (l₁ l₂ : List GwCycle) :
    ∀ st : GwState,
      gateway_run gateway_timeout restart_cooldown restart_max_attempts st (l₁ ++ l₂) =
      ((gateway_run gateway_timeout restart_cooldown restart_max_attempts
          (gateway_run gateway_timeout restart_cooldown restart_max_attempts st l₁).1 l₂).1,
       (gateway_run gateway_timeout restart_cooldown restart_max_attempts st l₁).2 +
        (gateway_run gateway_timeout restart_cooldown restart_max_attempts
          (gateway_run gateway_timeout restart_cooldown restart_max_attempts st l₁).1 l₂).2) := by
  induction l₁ with
  | nil => intro st; simp [gateway_run]
  | cons c rest ih =>
    intro st
    simp only [List.cons_append, gateway_run, List.append_eq]
    rw [ih]
    simp [Nat.add_assoc]

/-- C8 amended: in a run of failing past-timeout cycles with the default
limits, the counter never resets and counts every failing cycle; within
the first three failing restart invocations exactly one escalation
notification is sent, on the third, but each further failing cycle sends
one more escalation, because the counter is not reset after escalation. -/
theorem claim_C8 (f : Nat) (n : Nat) :
    (gateway_run 120 120 3 ⟨some 0, 0, none, f⟩ (failCycles n)).1 = ⟨some 0, n, none, f⟩ ∧
    (gateway_run 120 120 3 ⟨some 0, 0, none, f⟩ (failCycles n)).2 = n - 2 := by
  induction n with
  | zero => simp [failCycles, gateway_run]
  | succ n ih =>
    have hsplit : failCycles (n + 1) =
        failCycles n ++ [⟨200 * ((n : Int) + 1), "unreachable", true⟩] := by
      simp [failCycles, List.range_succ]
    have hstep := gateway_section_failing 120 120 3 (200 * ((n : Int) + 1)) 0 n f "unreachable"
      (by decide) (by omega)
    constructor
    · rw [hsplit, gateway_run_append, ih.1]
      simp only [gateway_run, hstep]
    · rw [hsplit, gateway_run_append, ih.1, ih.2]
      simp only [gateway_run, hstep]
      by_cases h3 : n + 1 ≥ 3
      · simp [h3]
        omega
      · simp [h3]
        omega

/-- monitor.py lines 932-936: the MiniMax quota part of run_single_check.
Input is the persisted minimax_quota_low flag and the threshold_reached
field computed by check_minimax_quota; output is the updated flag and
whether the quota notification was sent this cycle. -/
def minimax_branch (minimax_quota_low : Bool) (threshold_reached : Bool) : Bool × Bool :=
  if threshold_reached && !minimax_quota_low then (true, true)
  else if !threshold_reached then (false, false)
  else (minimax_quota_low, false)

/-- Repeated monitoring cycles of the MiniMax quota check, threading the
persisted flag over the per-cycle threshold_reached inputs and returning
for each cycle whether the notification was sent. -/
def minimax_run (minimax_quota_low : Bool) : List Bool → List Bool
  | [] => []
  | tr :: rest =>
    (minimax_branch minimax_quota_low tr).2 ::
      minimax_run (minimax_branch minimax_quota_low tr).1 rest

/-- C5: the MiniMax quota notification of a cycle is sent exactly when
threshold_reached holds and the persisted flag is clear, and the updated
flag always equals threshold_reached, so the flag is set on notification
and cleared whenever the threshold is not reached; consequently, in any
run the notifications mark exactly the rising edges of the
threshold_reached sequence: a cycle notifies precisely when its input is
true and the previous input, or initially the starting flag, was not. -/
theorem claim_C5 :
    (∀ minimax_quota_low threshold_reached : Bool,
      (minimax_branch minimax_quota_low threshold_reached).2 =
        (threshold_reached && !minimax_quota_low) ∧
      (minimax_branch minimax_quota_low threshold_reached).1 = threshold_reached) ∧
    ∀ (minimax_quota_low : Bool) (inputs : List Bool),
      minimax_run minimax_quota_low inputs =
        List.zipWith (fun prev cur => cur && !prev) (minimax_quota_low :: inputs) inputs := by
  constructor
  · decide
  · intro flag inputs
    induction inputs generalizing flag with
    | nil => simp [minimax_run]
    | cons tr rest ih =>
      have hstep : minimax_branch flag tr = (tr, tr && !flag) := by
        cases flag <;> cases tr <;> decide
      simp only [minimax_run, hstep, List.zipWith]
      exact congrArg _ (ih tr)
